import Mathlib

/-!
# headers.c

Verification development for `src/headers.c`: a translation unit made of a list of
`#include` directives followed by

    int main(int argc, char **argv) { return 0; }

Two things are modelled.

* The run-time behaviour of `main`, as a state-passing function over the
  observable process state (`World`).
* The text of the translation unit (`headers_c`, line by line) together with the
  part of the C translation phases needed to tell an active `#include` directive
  from one that sits inside a comment: comment removal (phase 3) and directive
  recognition with conditional nesting (phase 4).
-/

set_option linter.unusedVariables false

set_option maxRecDepth 100000

namespace Headers

/-! ## Run-time model -/

/-- Observable state of the process and its surroundings: the bytes present on the
two output streams, the files (path and contents), the environment variables and the
working directory. -/
structure World where
  stdout : List Nat
  stderr : List Nat
  files : List (String × List Nat)
  environ : List (String × String)
  cwd : String
  deriving DecidableEq, Repr

/-- `int main(int argc, char **argv) { return 0; }`

The C `int` is a mathematical integer here; the body performs no arithmetic, so no
wrap-around is involved.  The body contains no call and no assignment: the state is
handed back as received, together with the returned value. -/
def main (argc : Int) (argv : List String) (w : World) : Int × World :=
  (0, w)

/-- Bytes appended to a stream whose content was `before` and is now `after`. -/
def emitted (before after : List Nat) : List Nat :=
  after.drop before.length

/-- What a caller of the process can observe of a run started in `w` that ended with
result `r`: the exit status, the bytes newly written to standard output and those
newly written to standard error. -/
def observe (w : World) (r : Int × World) : Int × List Nat × List Nat :=
  (r.1, emitted w.stdout r.2.stdout, emitted w.stderr r.2.stderr)

/-- Everything a run leaves behind apart from the environment variables: the exit
status, the full content of both streams, the files and the working directory. -/
def outcome (r : Int × World) :
    Int × List Nat × List Nat × List (String × List Nat) × String :=
  (r.1, r.2.stdout, r.2.stderr, r.2.files, r.2.cwd)

/-- The process state `w` with its environment variables replaced by `env`. -/
def World.withEnviron (w : World) (env : List (String × String)) : World :=
  { w with environ := env }

/-- A process state with empty streams, no files and no environment variables. -/
def World.blank : World :=
  { stdout := [], stderr := [], files := [], environ := [], cwd := "/" }

/-! ## The translation unit -/

/-- The lines of `src/headers.c`, in order (162 lines; the last one has no
terminating newline).  Braces are written as escapes. -/
def headers_c : List String := [
  "// Source: https://en.wikipedia.org/wiki/C_standard_library#Header_files",
  "#include <assert.h>",
  "#include <complex.h>",
  "#include <ctype.h>",
  "#include <errno.h>",
  "#include <fenv.h>",
  "#include <float.h>",
  "#include <inttypes.h>",
  "#include <iso646.h>",
  "#include <limits.h>",
  "#include <locale.h>",
  "#include <math.h>",
  "#include <setjmp.h>",
  "#include <signal.h>",
  "#include <stdalign.h>",
  "#include <stdarg.h>",
  "#include <stdatomic.h>",
  "#include <stdbool.h>",
  "#include <stddef.h>",
  "#include <stdint.h>",
  "#include <stdio.h>",
  "#include <stdlib.h>",
  "#include <stdnoreturn.h>",
  "#include <string.h>",
  "#include <tgmath.h>",
  "#include <time.h>",
  "#include <wchar.h>",
  "#include <wctype.h>",
  "",
  "// Source: https://en.wikipedia.org/wiki/C_POSIX_library",
  "#include <aio.h>",
  "#include <arpa/inet.h>",
  "#include <assert.h>",
  "#include <complex.h>",
  "#include <cpio.h>",
  "#include <ctype.h>",
  "#include <dirent.h>",
  "#include <dlfcn.h>",
  "#include <errno.h>",
  "#include <fcntl.h>",
  "#include <fenv.h>",
  "#include <float.h>",
  "#include <fmtmsg.h>",
  "#include <fnmatch.h>",
  "#include <ftw.h>",
  "#include <glob.h>",
  "#include <grp.h>",
  "#include <iconv.h>",
  "#include <inttypes.h>",
  "#include <iso646.h>",
  "#include <langinfo.h>",
  "#include <libgen.h>",
  "#include <limits.h>",
  "#include <locale.h>",
  "#include <math.h>",
  "#include <monetary.h>",
  "/* #include <mqueue.h> - not found on macos catalina */",
  "#include <ndbm.h>",
  "#include <net/if.h>",
  "#include <netdb.h>",
  "#include <netinet/in.h>",
  "#include <netinet/tcp.h>",
  "#include <nl_types.h>",
  "#include <poll.h>",
  "#include <pthread.h>",
  "#include <pwd.h>",
  "#include <regex.h>",
  "#include <sched.h>",
  "#include <search.h>",
  "#include <semaphore.h>",
  "#include <setjmp.h>",
  "#include <signal.h>",
  "#include <spawn.h>",
  "#include <stdarg.h>",
  "#include <stdbool.h>",
  "#include <stddef.h>",
  "#include <stdint.h>",
  "#include <stdio.h>",
  "#include <stdlib.h>",
  "#include <string.h>",
  "#include <strings.h>",
  "/* #include <stropts.h> - not found on macos catalina */",
  "#include <sys/ipc.h>",
  "#include <sys/mman.h>",
  "#include <sys/msg.h>",
  "#include <sys/resource.h>",
  "#include <sys/select.h>",
  "#include <sys/sem.h>",
  "#include <sys/shm.h>",
  "#include <sys/socket.h>",
  "#include <sys/stat.h>",
  "#include <sys/statvfs.h>",
  "#include <sys/time.h>",
  "#include <sys/times.h>",
  "#include <sys/types.h>",
  "#include <sys/uio.h>",
  "#include <sys/un.h>",
  "#include <sys/utsname.h>",
  "#include <sys/wait.h>",
  "#include <syslog.h>",
  "#include <tar.h>",
  "#include <termios.h>",
  "#include <tgmath.h>",
  "#include <time.h>",
  "/* #include <trace.h> - not found on macos catalina */",
  "#include <ulimit.h>",
  "#include <unistd.h>",
  "#include <utime.h>",
  "#include <utmpx.h>",
  "#include <wchar.h>",
  "#include <wctype.h>",
  "#include <wordexp.h>",
  "",
  "// macOS system headers",
  "#include <mach/clock.h>",
  "#include <mach/mach.h>",
  "#include <mach/mach_time.h>",
  "#include <sys/acl.h>",
  "#include <sys/attr.h>",
  "#include <sys/ioctl.h>",
  "#include <sys/mount.h>",
  "#include <sys/param.h>",
  "#include <sys/sysctl.h>",
  "",
  "// Depended on by libcxx",
  "#include <Block.h>",
  "#include <xlocale.h>",
  "#include <copyfile.h>",
  "#include <mach-o/dyld.h>",
  "",
  "// Depended on by LLVM",
  "#include <sysexits.h>",
  "#include <crt_externs.h>",
  "#include <execinfo.h>",
  "",
  "// Depended on by several frameworks",
  "#include <AssertMacros.h>",
  "#include <device/device_types.h>",
  "#include <dispatch/dispatch.h>",
  "#include <hfs/hfs_format.h>",
  "#include <hfs/hfs_unistr.h>",
  "#include <libkern/OSAtomic.h>",
  "#include <libkern/OSTypes.h>",
  "#include <MacTypes.h>",
  "#include <objc/message.h>",
  "#include <objc/NSObject.h>",
  "#include <objc/NSObjCRuntime.h>",
  "#include <objc/objc.h>",
  "#include <os/lock.h>",
  "#include <simd/simd.h>",
  "#include <xpc/xpc.h>",
  "",
  "// Depended on by libuv",
  "#include <ifaddrs.h>",
  "#include <net/if_dl.h>",
  "",
  "// Provided by macOS LibC",
  "#include <memory.h>",
  "",
  "int main(int argc, char **argv) \x7b",
  "    return 0;",
  "\x7d"
]

/-! ## Comment removal and directive recognition -/

/-- Lexer state while removing comments. `slash` is "a `/` has been read in code and
not yet emitted", `blockStar` is "inside a block comment, a `*` has just been read". -/
inductive LexState where
  | code
  | slash
  | lineComment
  | blockComment
  | blockStar
  deriving DecidableEq, Repr

/-- Remove the comments of one line, starting in lexer state `st`; returns the
remaining characters and the state at the end of the line.  Each comment is replaced
by one space.  A `//` comment ends with the line; a block comment may continue on the
next line.  String and character literals are not tracked (the file has none). -/
def stripLine : LexState → List Char → List Char × LexState
  | .code, [] => ([], .code)
  | .slash, [] => (['/'], .code)
  | .lineComment, [] => ([], .code)
  | .blockComment, [] => ([], .blockComment)
  | .blockStar, [] => ([], .blockComment)
  | .code, c :: cs =>
      if c = '/' then stripLine .slash cs
      else let r := stripLine .code cs; (c :: r.1, r.2)
  | .slash, c :: cs =>
      if c = '/' then let r := stripLine .lineComment cs; (' ' :: r.1, r.2)
      else if c = '*' then stripLine .blockComment cs
      else let r := stripLine .code cs; ('/' :: c :: r.1, r.2)
  | .lineComment, _ :: cs => stripLine .lineComment cs
  | .blockComment, c :: cs =>
      if c = '*' then stripLine .blockStar cs else stripLine .blockComment cs
  | .blockStar, c :: cs =>
      if c = '/' then let r := stripLine .code cs; (' ' :: r.1, r.2)
      else if c = '*' then stripLine .blockStar cs
      else stripLine .blockComment cs

/-- Remove the comments of a whole file given as lines; the result has one line per
input line. -/
def stripLines : LexState → List (List Char) → List (List Char)
  | _, [] => []
  | st, l :: ls => let r := stripLine st l; r.1 :: stripLines r.2 ls

/-- Horizontal white space. -/
def isBlank (c : Char) : Bool :=
  c = ' ' || c = '\t'

/-- Characters of a directive name. -/
def isNameChar (c : Char) : Bool :=
  c.isAlphanum || c = '_'

/-- The directive name of a comment-free line: the line's first non-blank character
is `#`, and the name is the identifier that follows it (blanks allowed in between). -/
def directiveName (l : List Char) : Option (List Char) :=
  match l.dropWhile isBlank with
  | '#' :: rest => some ((rest.dropWhile isBlank).takeWhile isNameChar)
  | _ => none

/-- The line is an `#include` directive. -/
def isIncludeDirective (l : List Char) : Bool :=
  directiveName l = some "include".toList

/-- The line opens a conditional group (`#if`, `#ifdef`, `#ifndef`). -/
def opensConditional (l : List Char) : Bool :=
  directiveName l = some "if".toList || directiveName l = some "ifdef".toList
    || directiveName l = some "ifndef".toList

/-- The line closes a conditional group (`#endif`). -/
def closesConditional (l : List Char) : Bool :=
  directiveName l = some "endif".toList

/-- `p` occurs in `l` as a contiguous run of characters. -/
def occursIn (p : List Char) : List Char → Bool
  | [] => p.isEmpty
  | c :: cs => p.isPrefixOf (c :: cs) || occursIn p cs

/-- One line of the file after analysis: its number (from 1), its text, its text after
comment removal, and the number of conditional groups open where it stands. -/
structure Line where
  number : Nat
  raw : List Char
  stripped : List Char
  depth : Nat
  deriving DecidableEq, Repr

/-- Pair every raw line with its comment-free form, numbering lines from `n` and
tracking conditional nesting from `d`. -/
def analyse : Nat → Nat → List (List Char) → List (List Char) → List Line
  | n, d, r :: rs, s :: ss =>
      if opensConditional s then
        { number := n, raw := r, stripped := s, depth := d } :: analyse (n + 1) (d + 1) rs ss
      else if closesConditional s then
        { number := n, raw := r, stripped := s, depth := d - 1 } :: analyse (n + 1) (d - 1) rs ss
      else
        { number := n, raw := r, stripped := s, depth := d } :: analyse (n + 1) d rs ss
  | _, _, _, _ => []

/-- The analysed lines of a file. -/
def fileLines (src : List String) : List Line :=
  let raw := src.map String.toList
  analyse 1 0 raw (stripLines .code raw)

/-- The line's text mentions `#include`, in code or in a comment. -/
def Line.mentionsInclude (l : Line) : Bool :=
  occursIn "#include".toList l.raw

/-- The line is an `#include` directive seen by the preprocessor. -/
def Line.isActiveInclude (l : Line) : Bool :=
  isIncludeDirective l.stripped

/-- The line is a commented-out include: it mentions `#include`, and nothing but
blanks is left of it once comments are removed. -/
def Line.isCommentedOutInclude (l : Line) : Bool :=
  l.mentionsInclude && l.stripped.all isBlank

/-- The commented-out include lines of a file. -/
def commentedOutIncludes (src : List String) : List Line :=
  (fileLines src).filter Line.isCommentedOutInclude

/-- The active include directives of a file. -/
def activeIncludes (src : List String) : List Line :=
  (fileLines src).filter Line.isActiveInclude

/-- Every line that mentions `#include` and is not a commented-out include is an
active directive standing outside every conditional group. -/
def otherIncludesActiveUnconditional (src : List String) : Bool :=
  (fileLines src).all fun l =>
    (!l.mentionsInclude || l.isCommentedOutInclude || l.isActiveInclude)
      && (!l.isActiveInclude || l.depth == 0)

/-! ## Behaviour of `main` -/

/-- C1: for every argument count `argc`, every argument vector `argv` and every
process state, `main` (a total function, so it terminates) returns exit status 0. -/
theorem main_returns_zero (argc : Int) (argv : List String) (w : World) :
    (main argc argv w).1 = 0 :=
  rfl

/-- C1 at the invocation with no arguments (`argc = 1`, `argv` holding only the
program name) from a blank process state. -/
theorem main_returns_zero_no_arguments :
    (main 1 ["headers"] World.blank).1 = 0 :=
  main_returns_zero 1 ["headers"] World.blank

/-- C2: for every initial process state (contents of stdout, stderr and the files) and
every `argc`/`argv`, running `main` leaves that state unchanged; in particular it
appends nothing to stdout and nothing to stderr. -/
theorem main_leaves_world_unchanged (argc : Int) (argv : List String) (w : World) :
    (main argc argv w).2 = w
      ∧ emitted w.stdout (main argc argv w).2.stdout = []
      ∧ emitted w.stderr (main argc argv w).2.stderr = [] := by
  refine ⟨rfl, ?_, ?_⟩ <;> simp [main, emitted]

/-- C3: the observable result of `main` does not depend on its inputs, that is,
`main` reads neither its arguments nor the environment.
(1) Any two invocations, with arbitrary and possibly different `argc`, `argv` and
process state, have the same exit status and the same newly written output.
(2) Two invocations from the same process state `w` that differ in `argc`, `argv` and
the environment variables in an arbitrary way end with the same exit status, the same
stdout and stderr content, the same files and the same working directory.
(3) Each of the two leaves its own environment variables as it found them, whatever
the arguments. -/
theorem main_observation_independent_of_inputs
    (argc₁ argc₂ : Int) (argv₁ argv₂ : List String) (w₁ w₂ w : World)
    (env₁ env₂ : List (String × String)) :
    observe w₁ (main argc₁ argv₁ w₁) = observe w₂ (main argc₂ argv₂ w₂)
      ∧ outcome (main argc₁ argv₁ (w.withEnviron env₁))
          = outcome (main argc₂ argv₂ (w.withEnviron env₂))
      ∧ (main argc₁ argv₁ (w.withEnviron env₁)).2.environ = env₁
      ∧ (main argc₂ argv₂ (w.withEnviron env₂)).2.environ = env₂ := by
  refine ⟨?_, rfl, rfl, rfl⟩
  simp [observe, main, emitted]

/-! ## The include list -/

/-- The commented-out include lines of `headers.c`, by line number and text: lines
57, 82 and 105, disabling `mqueue.h`, `stropts.h` and `trace.h`. -/
theorem commentedOutIncludes_lines :
    (commentedOutIncludes headers_c).map (fun l => (l.number, l.raw)) =
      [(57, "/* #include <mqueue.h> - not found on macos catalina */".toList),
       (82, "/* #include <stropts.h> - not found on macos catalina */".toList),
       (105, "/* #include <trace.h> - not found on macos catalina */".toList)] := by
  decide

/-- The file `headers.c` has 140 active include directives. -/
theorem activeIncludes_length : (activeIncludes headers_c).length = 140 := by
  decide

/-- C4 as stated fails: it is not the case that `headers.c` has exactly two
commented-out include lines with every other include active and unconditional. -/
theorem headers_c_not_two_commented_out :
    ¬ ((commentedOutIncludes headers_c).length = 2
        ∧ otherIncludesActiveUnconditional headers_c = true) := by
  decide

/-- C4, amended: `headers.c` contains exactly three commented-out include lines, and
every other line mentioning `#include` is an active directive outside every
conditional group. -/
theorem headers_c_three_commented_out :
    (commentedOutIncludes headers_c).length = 3
      ∧ otherIncludesActiveUnconditional headers_c = true := by
  decide

end Headers
